import Mathlib

/-!
Verification of the CodeChase room/level/submission lifecycle and its
row-level authorization model.

The development shallowly embeds the relevant parts of the repository:

* the five tables of `supabase/migrations/20250213052139_polished_plain.sql`
  (surrogate uuid keys become `Nat`; timestamp columns are omitted because no
  statement here depends on them);
* the row-level-security policies of that migration and of the follow-up
  migration that adds the users INSERT policy;
* the client operations `toggleRoomStatus` (admin dashboard),
  `handleJoinRoom` (`src/pages/Dashboard.tsx`) and `runTests` (room page),
  written as pure state transformers; the writes they issue take effect only
  as far as row-level security admits them — in particular the two UPDATEs of
  `toggleRoomStatus` hit tables with no UPDATE policy and are default-denied;
* a small fragment of JavaScript value semantics — enough to distinguish
  `String(x)` from `x.toString()` — for the client-side test evaluator.
-/

namespace CodeChase

/-- Row of `public.users` (`id uuid PRIMARY KEY`, `username text UNIQUE`,
`points integer`; `current_level` and `created_at` omitted: no claim reads
them). -/
structure UserRow where
  id : Nat
  username : String
  points : Int
  deriving Repr, DecidableEq

/-- Row of `public.rooms` (`id`, `code text UNIQUE`, `name`, `status`
defaulting to "waiting", `created_by`; `created_at` omitted). -/
structure RoomRow where
  id : Nat
  code : String
  name : String
  status : String
  created_by : Nat
  deriving Repr, DecidableEq

/-- Row of `public.room_participants` (`room_id`, `user_id`,
`UNIQUE(room_id, user_id)`; surrogate `id` and `joined_at` omitted). -/
structure ParticipantRow where
  room_id : Nat
  user_id : Nat
  deriving Repr, DecidableEq

/-- One element of a level's `test_cases` jsonb list, as seeded by the admin
dashboard and consumed by the room page: `{input, expected, description}`. -/
structure TestCase where
  input : String
  expected : String
  description : String
  deriving Repr, DecidableEq

/-- Row of `public.levels` (`id`, `room_id`, `title`, `status` — added by the
client inserts — and `test_cases`; the remaining text columns `description`,
`initial_code`, `movie_reference`, `difficulty` are omitted: no claim reads
them). -/
structure LevelRow where
  id : Nat
  room_id : Nat
  title : String
  status : String
  test_cases : List TestCase
  deriving Repr, DecidableEq

/-- Row of `public.submissions` (`user_id`, `level_id`, `code`, `status`,
`points`; surrogate `id` and `submitted_at` omitted). -/
structure SubmissionRow where
  user_id : Nat
  level_id : Nat
  code : String
  status : String
  points : Int
  deriving Repr, DecidableEq

/-- The database state: one list of rows per table, in insertion order
(inserts append at the end, matching the physical order an unordered
`SELECT`/`UPDATE ... LIMIT` walks). -/
structure DB where
  users : List UserRow
  rooms : List RoomRow
  room_participants : List ParticipantRow
  levels : List LevelRow
  submissions : List SubmissionRow
  deriving Repr, DecidableEq

/-! ## Row-level-security policies (from the SQL migrations)

`auth.uid()` — the acting authenticated identity — is the `uid : Nat`
argument of each predicate. -/

/-- Policy "Users can read their own data": `USING (auth.uid() = id)`. -/
def usersSelectPolicy (uid : Nat) (row : UserRow) : Bool :=
  uid == row.id

/-- Policy "Users can insert their own data during registration":
`WITH CHECK (auth.uid() = id)`. -/
def usersInsertPolicy (uid : Nat) (row : UserRow) : Bool :=
  uid == row.id

/-- Policy "Anyone can read rooms": `USING (true)`. -/
def roomsSelectPolicy (_uid : Nat) (_row : RoomRow) : Bool :=
  true

/-- Policy "Admin can create rooms": `WITH CHECK (auth.uid() = created_by)`. -/
def roomsInsertPolicy (uid : Nat) (row : RoomRow) : Bool :=
  uid == row.created_by

/-- Policy "Users can join rooms": `WITH CHECK (auth.uid() = user_id)`. -/
def participantsInsertPolicy (uid : Nat) (row : ParticipantRow) : Bool :=
  uid == row.user_id

/-- Policy "Participants can view levels": `USING (EXISTS (SELECT 1 FROM
public.room_participants WHERE room_id = levels.room_id AND user_id =
auth.uid()))`. Here `levels` is not shadowed by the subquery, so the
reference to the protected row is genuinely correlated. -/
def levelsSelectPolicy (db : DB) (uid : Nat) (row : LevelRow) : Bool :=
  db.room_participants.any (fun p =>
    p.room_id == row.room_id && p.user_id == uid)

/-- Policy "Users can submit solutions": `WITH CHECK (auth.uid() = user_id)`. -/
def submissionsInsertPolicy (uid : Nat) (row : SubmissionRow) : Bool :=
  uid == row.user_id

/-- Policy "Users can view their submissions": `USING (auth.uid() = user_id)`. -/
def submissionsSelectPolicy (uid : Nat) (row : SubmissionRow) : Bool :=
  uid == row.user_id

/-- The four row operations governed by row-level security. -/
inductive RowOp
  | sel
  | ins
  | upd
  | del
  deriving Repr, DecidableEq

/-- The policies declared for `public.submissions`: the migration creates an
INSERT policy and a SELECT policy and nothing else, so UPDATE and DELETE have
no policy (`none`). -/
def submissionsPolicy : RowOp → Option (Nat → SubmissionRow → Bool)
  | RowOp.ins => some submissionsInsertPolicy
  | RowOp.sel => some submissionsSelectPolicy
  | RowOp.upd => none
  | RowOp.del => none

/-- Row-level security is ENABLED on every table (`ALTER TABLE ... ENABLE ROW
LEVEL SECURITY`), so an operation with no declared policy is denied by
default; otherwise the policy predicate decides. -/
def rlsAllows {α : Type} (pol : Option (Nat → α → Bool)) (uid : Nat) (row : α) : Bool :=
  match pol with
  | none => false
  | some p => p uid row

/-- The policies declared for `public.rooms`: the migration creates a SELECT
policy and an INSERT policy and nothing else, so UPDATE and DELETE have no
policy (`none`). -/
def roomsPolicy : RowOp → Option (Nat → RoomRow → Bool)
  | RowOp.sel => some roomsSelectPolicy
  | RowOp.ins => some roomsInsertPolicy
  | RowOp.upd => none
  | RowOp.del => none

/-- The policies declared for `public.levels`: the migration creates only the
SELECT policy "Participants can view levels", so INSERT, UPDATE and DELETE
have no policy (`none`). -/
def levelsPolicy (db : DB) : RowOp → Option (Nat → LevelRow → Bool)
  | RowOp.sel => some (levelsSelectPolicy db)
  | RowOp.ins => none
  | RowOp.upd => none
  | RowOp.del => none

/-! ## Admin dashboard: `toggleRoomStatus` -/

/-- Level predicate matched by the update filters
`.eq('room_id', roomId).eq('status', 'waiting')`. -/
def isWaitingIn (roomId : Nat) (l : LevelRow) : Bool :=
  l.room_id == roomId && l.status == "waiting"

/-- Level predicate for "active level of this room". -/
def isActiveIn (roomId : Nat) (l : LevelRow) : Bool :=
  l.room_id == roomId && l.status == "active"

/-- The level write issued by `toggleRoomStatus` when starting a room, as the
datastore executes it:
`update({status:'active'}).eq('room_id',roomId).eq('status','waiting').limit(1)`
— set the status of at most one row to "active" among the rows that both
match the statement's filters and are admitted by the UPDATE policy of
`levels` (the first such row in table order, no ordering being given). With
row-level security enabled and no UPDATE policy declared, no row is admitted
and the write affects zero rows (reported as success, not as an error). -/
def activateFirstWaiting (db : DB) (uid : Nat) : List LevelRow → Nat → List LevelRow
  | [], _ => []
  | l :: ls, roomId =>
    if rlsAllows (levelsPolicy db RowOp.upd) uid l && isWaitingIn roomId l then
      { l with status := "active" } :: ls
    else
      l :: activateFirstWaiting db uid ls roomId

/-- The room write issued by `toggleRoomStatus`, as the datastore executes
it: `update({status:newStatus}).eq('id',roomId)` rewrites the rows that match
the filter and are admitted by the UPDATE policy of `rooms`. With row-level
security enabled and no UPDATE policy declared, no row is admitted and the
write affects zero rows (reported as success, not as an error). -/
def updateRoomStatus (uid : Nat) (rooms : List RoomRow) (roomId : Nat)
    (newStatus : String) : List RoomRow :=
  rooms.map (fun r =>
    if rlsAllows (roomsPolicy RowOp.upd) uid r && r.id == roomId then
      { r with status := newStatus }
    else r)

/-- `toggleRoomStatus(roomId, currentStatus)` from the admin dashboard,
acting as the signed-in user `uid`. `currentStatus` is the room's displayed
status; the new status flips between "active" and "waiting". Only when the
new status is "active" is the level update issued (before the room update);
toggling back to "waiting" issues no level write at all. Both writes are
filtered through row-level security by the datastore. -/
def toggleRoomStatus (db : DB) (uid : Nat) (roomId : Nat) (currentStatus : String) : DB :=
  let newStatus := if currentStatus == "active" then "waiting" else "active"
  let levels :=
    if newStatus == "active" then activateFirstWaiting db uid db.levels roomId
    else db.levels
  { db with
    levels := levels
    rooms := updateRoomStatus uid db.rooms roomId newStatus }

/-! ## Joining a room: the `UNIQUE(room_id, user_id)` constraint and
`handleJoinRoom` -/

/-- An INSERT into `room_participants` as the database executes it: the
`UNIQUE(room_id, user_id)` constraint rejects a duplicate pair with a
duplicate-key error and leaves the table unchanged; otherwise the row is
appended. -/
def insertParticipant (parts : List ParticipantRow) (row : ParticipantRow) :
    Except String (List ParticipantRow) :=
  if parts.any (fun p => p.room_id == row.room_id && p.user_id == row.user_id) then
    Except.error "duplicate key value violates unique constraint"
  else
    Except.ok (parts ++ [row])

/-- An INSERT into `room_participants` by authenticated user `uid`: the RLS
policy "Users can join rooms" is checked first, then the unique constraint. -/
def insertParticipantChecked (uid : Nat) (parts : List ParticipantRow)
    (row : ParticipantRow) : Except String (List ParticipantRow) :=
  if participantsInsertPolicy uid row then
    insertParticipant parts row
  else
    Except.error "new row violates row-level security policy"

/-- The `room_participants` table after an insert attempt: unchanged when the
insert was rejected. -/
def participantsTableAfter (uid : Nat) (parts : List ParticipantRow)
    (row : ParticipantRow) : List ParticipantRow :=
  match insertParticipantChecked uid parts row with
  | Except.ok l => l
  | Except.error _ => parts

/-- The room lookup of `handleJoinRoom`:
`from('rooms').select('id').eq('code', roomCode).single()` — `code` is UNIQUE,
so the first match in table order is the row `.single()` returns (and `none`
models the error value whose `data` is null). -/
def findRoomByCode (rooms : List RoomRow) (code : String) : Option RoomRow :=
  (rooms.filter (fun r => r.code == code)).head?

/-- Observable outcome of `handleJoinRoom`: where the client navigated (if
anywhere), the error message surfaced via `setError` (if any), and the
resulting `room_participants` table. -/
structure JoinOutcome where
  navigatedTo : Option Nat
  errorMsg : Option String
  participants : List ParticipantRow
  deriving Repr, DecidableEq

/-- `handleJoinRoom` from `src/pages/Dashboard.tsx`: look the room up by code;
if none, `setError('Room not found')` and return. Otherwise insert a
`room_participants` row and navigate to the room page. The insert's result is
an error VALUE from the client library, not an exception; the source never
destructures or inspects it, so the match below only threads the table state
— navigation and the absence of a surfaced error are identical in both
branches, exactly as in the source. -/
def handleJoinRoom (db : DB) (uid : Nat) (roomCode : String) : JoinOutcome :=
  match findRoomByCode db.rooms roomCode with
  | none =>
    { navigatedTo := none
      errorMsg := some "Room not found"
      participants := db.room_participants }
  | some room =>
    let row : ParticipantRow := { room_id := room.id, user_id := uid }
    match insertParticipantChecked uid db.room_participants row with
    | Except.ok parts =>
      { navigatedTo := some room.id, errorMsg := none, participants := parts }
    | Except.error _ =>
      { navigatedTo := some room.id, errorMsg := none
        participants := db.room_participants }

/-! ## Client-side test evaluation: `runTests` (room page)

The submitted source text is turned into a callable with
`new Function('input', code)`; its behaviour is outside the embedding, so it
is a parameter `behavior : String → JsOutcome`. The fragment of JavaScript
value semantics below is just large enough to distinguish the total
conversion `String(x)` from the method call `x.toString()`, which throws a
TypeError when `x` is `undefined` or `null`. -/

/-- JavaScript values a test callable can return (fragment). -/
inductive JsValue
  | undef
  | null
  | str (s : String)
  | num (n : Int)
  | bool (b : Bool)
  deriving Repr, DecidableEq

/-- Result of invoking the callable: a returned value or a thrown error with
its message. -/
inductive JsOutcome
  | ret (v : JsValue)
  | thrown (msg : String)
  deriving Repr, DecidableEq

/-- The method call `v.toString()`: throws (here `none`) on `undefined` and
`null`, otherwise yields the standard string conversion. -/
def JsValue.toStringJs : JsValue → Option String
  | JsValue.undef => none
  | JsValue.null => none
  | JsValue.str s => some s
  | JsValue.num n => some (toString n)
  | JsValue.bool b => some (if b then "true" else "false")

/-- The total conversion `String(v)` (what the specification text says the
evaluator compares with): maps `undefined` and `null` to their names instead
of throwing. -/
def stringOf : JsValue → String
  | JsValue.undef => "undefined"
  | JsValue.null => "null"
  | JsValue.str s => s
  | JsValue.num n => toString n
  | JsValue.bool b => if b then "true" else "false"

/-- One entry of the `testResults` state. -/
structure TestResult where
  passed : Bool
  message : String
  output : Option String
  deriving Repr, DecidableEq

/-- One iteration of the `test_cases.map` in `runTests`:
invoke `testFunction(test.input)`, then `passed = output.toString() ===
test.expected`. Any exception — from the callable itself or from
`output.toString()` on `undefined`/`null` — is caught and yields a failed
result carrying the error message (`TypeError` text for the latter). -/
def runTest (behavior : String → JsOutcome) (t : TestCase) : TestResult :=
  match behavior t.input with
  | JsOutcome.thrown m => { passed := false, message := m, output := none }
  | JsOutcome.ret v =>
    match v.toStringJs with
    | none =>
      { passed := false
        message := "TypeError: cannot read toString of null or undefined"
        output := none }
    | some s =>
      { passed := s == t.expected
        message := if s == t.expected then "Test passed!" else "Test failed"
        output := some s }

/-- `runTests` from the room page: map `runTest` over the current level's
test cases; if `results.every((r) => r.passed)` then insert exactly one
`submissions` row `{user_id, level_id, code, status:'completed', points:100}`.
Returns the results list and the submissions table after the run. -/
def runTests (behavior : String → JsOutcome) (level : LevelRow) (uid : Nat)
    (code : String) (subs : List SubmissionRow) :
    List TestResult × List SubmissionRow :=
  let results := level.test_cases.map (runTest behavior)
  if results.all (fun r => r.passed) then
    (results, subs ++ [{ user_id := uid, level_id := level.id, code := code,
                         status := "completed", points := 100 }])
  else
    (results, subs)

/-! ## Dashboard top-users query -/

/-- Rows of `users` visible to `uid` under the SELECT policy "Users can read
their own data" — the datastore filters every SELECT through the policy. -/
def visibleUsers (uid : Nat) (users : List UserRow) : List UserRow :=
  users.filter (fun r => usersSelectPolicy uid r)

/-- One entry of the Dashboard leaderboard: the projection
`select('username, points')`. -/
structure TopUserEntry where
  username : String
  points : Int
  deriving Repr, DecidableEq

/-- Stable insertion step for `order('points', { ascending: false })`. -/
def insertByPoints (r : UserRow) : List UserRow → List UserRow
  | [] => [r]
  | x :: xs => if x.points < r.points then r :: x :: xs else x :: insertByPoints r xs

/-- Stable sort by points, descending. -/
def sortByPointsDesc : List UserRow → List UserRow
  | [] => []
  | x :: xs => insertByPoints x (sortByPointsDesc xs)

/-- The Dashboard top-users query as `uid` sees it:
`from('users').select('username, points').order('points', {ascending:false})
.limit(5)`, run through the RLS filter. -/
def topUsersQuery (uid : Nat) (users : List UserRow) : List TopUserEntry :=
  ((sortByPointsDesc (visibleUsers uid users)).take 5).map
    (fun r => { username := r.username, points := r.points })

/-! ## Reachability of the submissions table -/

/-- One RLS-governed mutation of the `submissions` table. Every constructor
carries the acting identity and the fact that row-level security admitted the
operation; `update` and `delete` are stated in full generality (any position,
any replacement) precisely so that the append-only theorem has to rule them
out via the policy set. -/
inductive SubmissionsStep : List SubmissionRow → List SubmissionRow → Prop
  | insert (s : List SubmissionRow) (uid : Nat) (row : SubmissionRow)
      (h : rlsAllows (submissionsPolicy RowOp.ins) uid row = true) :
      SubmissionsStep s (s ++ [row])
  | update (uid : Nat) (pre post : List SubmissionRow) (old repl : SubmissionRow)
      (h : rlsAllows (submissionsPolicy RowOp.upd) uid old = true) :
      SubmissionsStep (pre ++ old :: post) (pre ++ repl :: post)
  | delete (uid : Nat) (pre post : List SubmissionRow) (old : SubmissionRow)
      (h : rlsAllows (submissionsPolicy RowOp.del) uid old = true) :
      SubmissionsStep (pre ++ old :: post) (pre ++ post)

/-- Insertion log of the submissions table: each entry records the acting
identity alongside the row it inserted, and every insert had to pass the
INSERT policy. -/
inductive SubmissionLogReachable : List (Nat × SubmissionRow) → Prop
  | nil : SubmissionLogReachable []
  | ins (log : List (Nat × SubmissionRow)) (uid : Nat) (row : SubmissionRow)
      (hlog : SubmissionLogReachable log)
      (hpol : rlsAllows (submissionsPolicy RowOp.ins) uid row = true) :
      SubmissionLogReachable (log ++ [(uid, row)])

/-! ## Concrete fixtures used by witnesses and counterexamples -/

/-- Four seeded levels: three for room 1 (all waiting) and one for room 2. -/
def sampleLevels : List LevelRow :=
  [⟨1, 1, "L1", "waiting", []⟩, ⟨2, 1, "L2", "waiting", []⟩,
   ⟨3, 1, "L3", "waiting", []⟩, ⟨4, 2, "M1", "waiting", []⟩]

/-- A database with one waiting room (id 1) owning three waiting levels. -/
def sampleDB1 : DB :=
  ⟨[], [⟨1, "AAA", "Room A", "waiting", 99⟩], [], sampleLevels, []⟩

/-- A database with one active room (id 1, created by user 99) that has one
active and one waiting level. -/
def activeRoomDB : DB :=
  ⟨[], [⟨1, "AAA", "Room A", "active", 99⟩], [],
   [⟨1, 1, "L1", "active", []⟩, ⟨2, 1, "L2", "waiting", []⟩], []⟩

/-- The seeded Digital Rain level with the two test cases named by the spec
scenario. -/
def rainLevel : LevelRow :=
  ⟨42, 1, "Digital Rain", "active",
   [⟨"hello", "h\ne\nl\nl\no", "cascade hello"⟩, ⟨"neo", "n\ne\no", "cascade neo"⟩]⟩

/-- A submitted-code behaviour that solves the Digital Rain test cases. -/
def rainBehavior : String → JsOutcome := fun input =>
  if input == "hello" then JsOutcome.ret (JsValue.str "h\ne\nl\nl\no")
  else if input == "neo" then JsOutcome.ret (JsValue.str "n\ne\no")
  else JsOutcome.ret JsValue.undef

/-- A database with one room of code "ABC" which user 10 has already joined. -/
def joinDB : DB :=
  ⟨[], [⟨1, "ABC", "Room", "waiting", 99⟩], [⟨1, 10⟩], [], []⟩

/-! ## Theorems -/

/-- Claim C3: the submissions INSERT policy admits a row if and only if its
`user_id` is the acting identity, and consequently every entry of any
reachable insertion log has a row whose `user_id` equals the identity that
inserted it. -/
theorem submissions_insert_owner_only :
    (∀ uid row, rlsAllows (submissionsPolicy RowOp.ins) uid row = true ↔
      row.user_id = uid) ∧
    (∀ log, SubmissionLogReachable log → ∀ p ∈ log, (p.2).user_id = p.1) := by
  constructor
  · intro uid row
    show (uid == row.user_id) = true ↔ row.user_id = uid
    rw [beq_iff_eq]
    exact eq_comm
  · intro log h
    induction h with
    | nil => intro p hp; simp at hp
    | ins log uid row hlog hpol ih =>
      intro p hp
      rcases List.mem_append.mp hp with h1 | h2
      · exact ih p h1
      · have hpe : p = (uid, row) := by simpa using h2
        subst hpe
        simp only [rlsAllows, submissionsPolicy, submissionsInsertPolicy,
          beq_iff_eq] at hpol
        exact hpol.symm

/-- Witness for C3: inserting `⟨5, 1, "c", "completed", 100⟩` as user 5
passes the policy and the resulting one-entry log satisfies the ownership
invariant. -/
theorem submissions_insert_owner_only_witness :
    (⟨5, 1, "c", "completed", 100⟩ : SubmissionRow).user_id = 5 :=
  submissions_insert_owner_only.2 ([] ++ [(5, ⟨5, 1, "c", "completed", 100⟩)])
    (SubmissionLogReachable.ins [] 5 ⟨5, 1, "c", "completed", 100⟩
      SubmissionLogReachable.nil rfl)
    (5, ⟨5, 1, "c", "completed", 100⟩) (by simp)

/-- Claim C6: once a `(room, user)` pair has joined successfully, a second
insert of the same pair is rejected by the `UNIQUE(room_id, user_id)`
constraint and leaves the `room_participants` table unchanged. -/
theorem join_same_pair_twice_fails (parts : List ParticipantRow)
    (roomId uid : Nat) (h : (⟨roomId, uid⟩ : ParticipantRow) ∈ parts) :
    insertParticipantChecked uid parts ⟨roomId, uid⟩ =
      Except.error "duplicate key value violates unique constraint" ∧
    participantsTableAfter uid parts ⟨roomId, uid⟩ = parts := by
  have hdup : (parts.any fun p => p.room_id == roomId && p.user_id == uid) = true := by
    rw [List.any_eq_true]
    exact ⟨⟨roomId, uid⟩, h, by simp⟩
  constructor
  · simp [insertParticipantChecked, participantsInsertPolicy, insertParticipant, hdup]
  · simp [participantsTableAfter, insertParticipantChecked,
      participantsInsertPolicy, insertParticipant, hdup]

/-- Witness for C6: with the pair (room 1, user 10) already present, the
second join attempt fails and leaves the table as it was. -/
theorem join_same_pair_twice_fails_witness :
    insertParticipantChecked 10 [⟨1, 10⟩] ⟨1, 10⟩ =
      Except.error "duplicate key value violates unique constraint" ∧
    participantsTableAfter 10 [⟨1, 10⟩] ⟨1, 10⟩ = [⟨1, 10⟩] :=
  join_same_pair_twice_fails [⟨1, 10⟩] 1 10 (by decide)

/-- Claim C7: row-level security denies every UPDATE and DELETE on
`submissions` (no policy exists for those operations), so any sequence of
RLS-governed mutations can only append: the prior table is a prefix of the
later one, leaving every written row intact. -/
theorem submissions_append_only :
    (∀ uid row, rlsAllows (submissionsPolicy RowOp.upd) uid row = false ∧
      rlsAllows (submissionsPolicy RowOp.del) uid row = false) ∧
    (∀ s t, Relation.ReflTransGen SubmissionsStep s t → ∃ u, t = s ++ u) := by
  constructor
  · intro uid row
    exact ⟨rfl, rfl⟩
  · intro s t h
    induction h with
    | refl => exact ⟨[], by simp⟩
    | tail hab hstep ih =>
      rcases ih with ⟨u, hu⟩
      cases hstep with
      | insert s2 uid row hpol =>
        exact ⟨u ++ [row], by rw [hu]; simp⟩
      | update uid pre post old repl hpol =>
        simp [rlsAllows, submissionsPolicy] at hpol
      | delete uid pre post old hpol =>
        simp [rlsAllows, submissionsPolicy] at hpol

/-- Witness for C7: one policy-checked insert by user 7 extends the table
`[⟨7, 1, "a", "completed", 100⟩]` by appending, never rewriting. -/
theorem submissions_append_only_witness :
    ∃ u, [(⟨7, 1, "a", "completed", 100⟩ : SubmissionRow),
          ⟨7, 2, "b", "completed", 100⟩] =
      [(⟨7, 1, "a", "completed", 100⟩ : SubmissionRow)] ++ u :=
  submissions_append_only.2 [⟨7, 1, "a", "completed", 100⟩]
    [⟨7, 1, "a", "completed", 100⟩, ⟨7, 2, "b", "completed", 100⟩]
    (Relation.ReflTransGen.single
      (SubmissionsStep.insert [⟨7, 1, "a", "completed", 100⟩] 7
        ⟨7, 2, "b", "completed", 100⟩ rfl))

/-- Helper: the level write of `toggleRoomStatus` is default-denied — no
UPDATE policy exists on `levels`, so the limited update leaves the table
unchanged. -/
theorem activateFirstWaiting_denied (db : DB) (uid : Nat) (ls : List LevelRow)
    (roomId : Nat) : activateFirstWaiting db uid ls roomId = ls := by
  induction ls with
  | nil => rfl
  | cons l ls ih => simp [activateFirstWaiting, levelsPolicy, rlsAllows, ih]

/-- Helper: the room write of `toggleRoomStatus` is default-denied — no
UPDATE policy exists on `rooms`, so the status update leaves the table
unchanged. -/
theorem updateRoomStatus_denied (uid : Nat) (rooms : List RoomRow)
    (roomId : Nat) (s : String) : updateRoomStatus uid rooms roomId s = rooms := by
  simp [updateRoomStatus, roomsPolicy, rlsAllows]

/-- Helper: since both of its writes are denied by row-level security,
`toggleRoomStatus` leaves the database exactly as it was, whatever the
direction of the toggle. -/
theorem toggleRoomStatus_denied (db : DB) (uid roomId : Nat)
    (currentStatus : String) : toggleRoomStatus db uid roomId currentStatus = db := by
  simp [toggleRoomStatus, activateFirstWaiting_denied, updateRoomStatus_denied]

/-- Claim C8 is right about the intent but the code denies the write:
`toggleRoomStatus` toward waiting leaves every level row unchanged (as the
claim says), but it does NOT change the room's status field — the rooms
UPDATE has no policy under enabled row-level security, so it affects zero
rows. Evaluated at the failing input: the creator (user 99) deactivating the
active room 1 of `activeRoomDB` leaves its status "active". -/
theorem toggle_to_waiting_changes_nothing :
    (∀ db uid roomId, toggleRoomStatus db uid roomId "active" = db) ∧
    (toggleRoomStatus activeRoomDB 99 1 "active").levels = activeRoomDB.levels ∧
    (toggleRoomStatus activeRoomDB 99 1 "active").rooms =
      [⟨1, "AAA", "Room A", "active", 99⟩] :=
  ⟨fun db uid roomId => toggleRoomStatus_denied db uid roomId "active", rfl, rfl⟩

/-- Claim C10: whenever the room code resolves, `handleJoinRoom` navigates to
that room and surfaces no error — whether or not the participants insert was
accepted, since its error value is never inspected. -/
theorem handle_join_navigates_regardless (db : DB) (uid : Nat)
    (roomCode : String) (room : RoomRow)
    (h : findRoomByCode db.rooms roomCode = some room) :
    (handleJoinRoom db uid roomCode).navigatedTo = some room.id ∧
    (handleJoinRoom db uid roomCode).errorMsg = none := by
  unfold handleJoinRoom
  rw [h]
  cases hins : insertParticipantChecked uid db.room_participants
      ⟨room.id, uid⟩ with
  | ok parts => simp [hins]
  | error e => simp [hins]

/-- Witness for C10: user 10 has already joined room 1, so the second join
attempt's insert is rejected by the unique constraint — yet `handleJoinRoom`
still navigates to room 1 with no surfaced error. -/
theorem handle_join_navigates_regardless_witness :
    (handleJoinRoom joinDB 10 "ABC").navigatedTo = some 1 ∧
    (handleJoinRoom joinDB 10 "ABC").errorMsg = none :=
  handle_join_navigates_regardless joinDB 10 "ABC" ⟨1, "ABC", "Room", "waiting", 99⟩ rfl

/-- Claim C4, counterexample: a callable that returns `undefined` against a
test case expecting the string "undefined". `String(output)` equals the
expected text, so the claim as stated declares the test passed — but the code
calls `output.toString()`, which throws, and the caught exception marks the
test failed. -/
theorem run_test_string_conv_mismatch :
    stringOf JsValue.undef = (⟨"x", "undefined", "d"⟩ : TestCase).expected ∧
    (fun (_ : String) => JsOutcome.ret JsValue.undef) "x" =
      JsOutcome.ret JsValue.undef ∧
    (runTest (fun _ => JsOutcome.ret JsValue.undef) ⟨"x", "undefined", "d"⟩).passed
      = false :=
  ⟨rfl, rfl, rfl⟩

/-- Claim C4 (amended): when the callable returns a value `v`, the evaluator
declares the test passed iff `v.toString()` succeeds (v is neither
`undefined` nor `null`) and its result equals the expected string — the
comparison the code performs is `output.toString() === expected`, not
`String(output) === expected`. -/
theorem run_test_pass_iff_toString_eq (behavior : String → JsOutcome)
    (t : TestCase) (v : JsValue) (h : behavior t.input = JsOutcome.ret v) :
    (runTest behavior t).passed = true ↔ JsValue.toStringJs v = some t.expected := by
  unfold runTest
  rw [h]
  cases hts : v.toStringJs with
  | none => simp [hts]
  | some s => simp [hts, beq_iff_eq]

/-- Witness for C4 (amended): the Digital Rain behaviour on input "neo"
returns the string the test expects, and the evaluator declares it passed. -/
theorem run_test_pass_iff_toString_eq_witness :
    (runTest rainBehavior ⟨"neo", "n\ne\no", "cascade neo"⟩).passed = true ↔
    JsValue.toStringJs (JsValue.str "n\ne\no") = some "n\ne\no" :=
  run_test_pass_iff_toString_eq rainBehavior ⟨"neo", "n\ne\no", "cascade neo"⟩
    (JsValue.str "n\ne\no") rfl

/-- Claim C5: a run of `runTests` evaluates every test case of the level; if
all of them pass it appends exactly one submission row with status
"completed" and 100 points, and if any fails it writes no submission row. -/
theorem run_tests_submission_iff_all_pass (behavior : String → JsOutcome)
    (level : LevelRow) (uid : Nat) (code : String) (subs : List SubmissionRow) :
    (runTests behavior level uid code subs).1 =
      level.test_cases.map (runTest behavior) ∧
    ((level.test_cases.map (runTest behavior)).all (fun r => r.passed) = true →
      (runTests behavior level uid code subs).2 =
        subs ++ [{ user_id := uid, level_id := level.id, code := code,
                   status := "completed", points := 100 }]) ∧
    ((level.test_cases.map (runTest behavior)).all (fun r => r.passed) = false →
      (runTests behavior level uid code subs).2 = subs) := by
  unfold runTests
  cases h : (level.test_cases.map (runTest behavior)).all (fun r => r.passed) <;>
    simp [h]

/-- Witness for C5: the spec scenario — a behaviour passing both Digital Rain
test cases appends exactly one completed submission worth 100 points to an
empty table. -/
theorem run_tests_submission_iff_all_pass_witness :
    (runTests rainBehavior rainLevel 7 "code" []).2 =
      [{ user_id := 7, level_id := 42, code := "code",
         status := "completed", points := 100 }] :=
  (run_tests_submission_iff_all_pass rainBehavior rainLevel 7 "code" []).2.1 rfl

/-- Claim C1 is right about the intent but the code denies the write: the
spec's room lifecycle requires activation to flip exactly one waiting level
to active, but the levels UPDATE issued by `toggleRoomStatus` has no policy
under enabled row-level security, so it affects zero rows. Evaluated at the
failing input: the creator (user 99) activating room 1 of `sampleDB1`, which
holds exactly three waiting levels, leaves all three waiting and none
active. -/
theorem toggle_to_active_activates_no_level :
    (∀ db uid roomId currentStatus,
      toggleRoomStatus db uid roomId currentStatus = db) ∧
    (sampleDB1.levels.filter (isWaitingIn 1)).length = 3 ∧
    ((toggleRoomStatus sampleDB1 99 1 "waiting").levels.filter (isWaitingIn 1)).length = 3 ∧
    ((toggleRoomStatus sampleDB1 99 1 "waiting").levels.filter (isActiveIn 1)).length = 0 ∧
    (toggleRoomStatus sampleDB1 99 1 "waiting").rooms =
      [⟨1, "AAA", "Room A", "waiting", 99⟩] :=
  ⟨toggleRoomStatus_denied, rfl, rfl, rfl, rfl⟩

/-- Helper: the RLS filter on `users` keeps exactly the rows whose `id` is
the caller's identity. -/
theorem visibleUsers_eq_filter (uid : Nat) (us : List UserRow) :
    visibleUsers uid us = us.filter (fun r => r.id == uid) := by
  unfold visibleUsers
  apply List.filter_congr
  intro r _
  show (uid == r.id) = (r.id == uid)
  cases h1 : uid == r.id <;> cases h2 : r.id == uid <;> simp_all [beq_iff_eq]

/-- Helper: inserting into a sorted-by-points list adds one element. -/
theorem insertByPoints_length (r : UserRow) (l : List UserRow) :
    (insertByPoints r l).length = l.length + 1 := by
  induction l with
  | nil => rfl
  | cons x xs ih =>
    by_cases h : x.points < r.points <;> simp [insertByPoints, h, ih]

/-- Helper: sorting preserves length. -/
theorem sortByPointsDesc_length (l : List UserRow) :
    (sortByPointsDesc l).length = l.length := by
  induction l with
  | nil => rfl
  | cons x xs ih => simp [sortByPointsDesc, insertByPoints_length, ih]

/-- Helper: members of the insertion step come from the inserted element or
the list. -/
theorem mem_insertByPoints (x r : UserRow) (l : List UserRow)
    (h : x ∈ insertByPoints r l) : x = r ∨ x ∈ l := by
  induction l with
  | nil =>
    simp [insertByPoints] at h
    exact Or.inl h
  | cons y ys ih =>
    by_cases hc : y.points < r.points
    · simp only [insertByPoints, if_pos hc, List.mem_cons] at h
      rcases h with h | h | h
      · exact Or.inl h
      · exact Or.inr (by simp [h])
      · exact Or.inr (List.mem_cons_of_mem y h)
    · simp only [insertByPoints, if_neg hc, List.mem_cons] at h
      rcases h with h | h
      · exact Or.inr (by simp [h])
      · rcases ih h with h | h
        · exact Or.inl h
        · exact Or.inr (List.mem_cons_of_mem y h)

/-- Helper: members of the sorted list are members of the original list. -/
theorem mem_sortByPointsDesc (x : UserRow) (l : List UserRow)
    (h : x ∈ sortByPointsDesc l) : x ∈ l := by
  induction l with
  | nil => simp [sortByPointsDesc] at h
  | cons y ys ih =>
    rcases mem_insertByPoints x y (sortByPointsDesc ys) h with h1 | h1
    · simp [h1]
    · exact List.mem_cons_of_mem y (ih h1)

/-- Helper: under the primary-key discipline (`id` values without repetition)
at most one row carries a given id. -/
theorem filter_id_length_le_one (uid : Nat) (us : List UserRow)
    (h : (us.map (fun r => r.id)).Nodup) :
    (us.filter (fun r => r.id == uid)).length ≤ 1 := by
  induction us with
  | nil => simp
  | cons x xs ih =>
    rw [List.map_cons, List.nodup_cons] at h
    obtain ⟨hx, hxs⟩ := h
    cases hb : (x.id == uid) with
    | false => simpa [List.filter_cons, hb] using ih hxs
    | true =>
      have hxid : x.id = uid := by simpa [beq_iff_eq] using hb
      have hnil : xs.filter (fun r => r.id == uid) = [] := by
        rw [List.filter_eq_nil_iff]
        intro a ha
        simp only [beq_iff_eq]
        intro haid
        apply hx
        have hmm : a.id ∈ xs.map (fun r => r.id) := List.mem_map_of_mem _ ha
        rwa [haid, ← hxid] at hmm
      simp [List.filter_cons, hb, hnil]

/-- Claim C9: the Dashboard top-users query is blinded to every row but the
caller's own — two user tables agreeing on the caller's rows yield identical
query results; under unique ids the result has at most one entry; and every
returned entry is the projection of one of the caller's own rows. -/
theorem users_query_own_row_only :
    (∀ uid us1 us2, us1.filter (fun r => r.id == uid) =
        us2.filter (fun r => r.id == uid) →
      topUsersQuery uid us1 = topUsersQuery uid us2) ∧
    (∀ uid us, (us.map (fun r => r.id)).Nodup →
      (topUsersQuery uid us).length ≤ 1) ∧
    (∀ uid us e, e ∈ topUsersQuery uid us →
      ∃ r, r ∈ us ∧ r.id = uid ∧ e.username = r.username ∧ e.points = r.points) := by
  refine ⟨?_, ?_, ?_⟩
  · intro uid us1 us2 h
    unfold topUsersQuery
    rw [visibleUsers_eq_filter, visibleUsers_eq_filter, h]
  · intro uid us h
    have h1 := filter_id_length_le_one uid us h
    unfold topUsersQuery
    rw [List.length_map, List.length_take, sortByPointsDesc_length,
      visibleUsers_eq_filter]
    omega
  · intro uid us e he
    unfold topUsersQuery at he
    rcases List.mem_map.mp he with ⟨r, hr, hre⟩
    have hr2 : r ∈ sortByPointsDesc (visibleUsers uid us) := List.mem_of_mem_take hr
    have hr3 : r ∈ visibleUsers uid us := mem_sortByPointsDesc r _ hr2
    rw [visibleUsers_eq_filter] at hr3
    have hmf := List.mem_filter.mp hr3
    exact ⟨r, hmf.1, by simpa [beq_iff_eq] using hmf.2, by rw [← hre],
      by rw [← hre]⟩

/-- Witness for C9: two tables agreeing on user 10's row but differing in
everyone else produce the same leaderboard for user 10. -/
theorem users_query_own_row_only_witness :
    topUsersQuery 10 [⟨10, "a", 5⟩, ⟨20, "b", 9⟩] =
    topUsersQuery 10 [⟨10, "a", 5⟩, ⟨30, "c", 1⟩] :=
  users_query_own_row_only.1 10 [⟨10, "a", 5⟩, ⟨20, "b", 9⟩]
    [⟨10, "a", 5⟩, ⟨30, "c", 1⟩] rfl

end CodeChase
